import Mathlib

/-!
Verification development for the F95 query-resolution and thread-retrieval
pipeline. The TypeScript sources are shallowly embedded: network responses
are passed in explicitly as values of the `Result` container the code
threads through its fetch helpers, a thrown JavaScript exception is
modelled by the error channel of `Except`, and the external HTML scraping
collaborators (cheerio selector extraction) are represented by their parsed
output, as the specification scopes them out of the core.
-/

namespace F95

/-- Modelled from the spec: the `Result` discriminated success/failure
container of classes/result.ts, which is not under src (only its importers
are). Spec section 3: tagged union of Success(T) or Failure(E), never both,
consumed via explicit success/failure inspection. -/
inductive Result (E T : Type) where
  | failure (e : E)
  | success (v : T)
deriving DecidableEq, Repr

/-- Embeds Result.isSuccess. -/
def Result.isSuccess {E T : Type} : Result E T → Bool
  | .success _ => true
  | .failure _ => false

/-- Embeds Result.isFailure. -/
def Result.isFailure {E T : Type} (r : Result E T) : Bool :=
  !r.isSuccess

/-- Embeds the error classes of classes/errors.ts used by the pipeline:
GenericAxiosError and UnexpectedResponseContentType, each carrying an id
and a message (network-helper.ts builds them with literal ids 1 and 2). -/
inductive FetchError where
  | genericAxios (id : Nat) (message : String)
  | unexpectedContentType (id : Nat) (message : String)
deriving DecidableEq, Repr

/-- Embeds the data of classes/mapping/post.ts relevant to the pipeline:
the platform-unique post id is the sort key of Thread.fetchPosts; the
message stands for the remaining scraped payload and plays no role in
ordering. -/
structure Post where
  id : Nat
  message : String
deriving DecidableEq, Repr

namespace Thread

/-- Embeds the comparator passed to Array.prototype.sort in
Thread.fetchPosts line 167: (a, b) => (a.id > b.id) ? 1 : ((b.id > a.id) ? -1 : 0). -/
def postComparator (a b : Post) : Int :=
  if a.id > b.id then 1 else if b.id > a.id then -1 else 0

/-- Embeds fetchedPosts.sort(postComparator). Array.prototype.sort is
required (ES2019, Node 14) to be a stable sort consistent with the
comparator; for this comparator the result is therefore the unique stable
sort by nondecreasing post id, which List.mergeSort computes. -/
def sortPosts (posts : List Post) : List Post :=
  posts.mergeSort (fun a b => postComparator a b ≤ 0)

/-- Embeds Thread.setMaximumPostsForPage (thread.ts lines 92-107). The
fetchPOSTResponse network call is passed in as its Result value; the method
returns Promise of void, so a failure can only leave it by the statement
`throw response.value` (line 106), modelled by the Except error channel.
The success payload of the POST response is irrelevant and kept as a
String. -/
def setMaximumPostsForPage (response : Result FetchError String) : Except FetchError Unit :=
  match response with
  | .failure e => .error e
  | .success _ => .ok ()

/-- Embeds the response loop of Thread.fetchPosts (thread.ts lines 157-164):
the awaited responses arrive in request-index order (Promise.all preserves
the order of htmlPromiseList); each success is parsed into the posts of
that page (parsePostsInPage is external cheerio scraping, so a page
response carries its parsed post list) and appended to fetchedPosts, and
the first failure is thrown (`else throw response.value`, line 163),
discarding every already-accumulated post. -/
def scrapePages : List (Result FetchError (List Post)) → Except FetchError (List Post)
  | [] => .ok []
  | .failure e :: _ => .error e
  | .success posts :: rest =>
    match scrapePages rest with
    | .error e => .error e
    | .ok tail => .ok (posts ++ tail)

/-- Embeds Thread.fetchPosts (thread.ts lines 134-168): first the
side-effecting pagination-size request (setMaximumPostsForPage(100), which
throws on failure), then the fan-out of page fetches whose settled
responses are scanned in request-index order, then the mandatory sort of
the concatenated posts. -/
def fetchPosts (pagination : Result FetchError String)
    (responses : List (Result FetchError (List Post))) : Except FetchError (List Post) :=
  match setMaximumPostsForPage pagination with
  | .error e => .error e
  | .ok _ =>
    match scrapePages responses with
    | .error e => .error e
    | .ok fetchedPosts => .ok (sortPosts fetchedPosts)

/-- The scraped data of the first thread page that Thread.fetch extracts
before fetching posts (title stands for the scalar fields produced by the
external selector scraping). -/
structure ThreadPage where
  title : String
deriving DecidableEq, Repr

/-- The materialized thread aggregate: the fields Thread.fetch assigns,
with the ordered post list. -/
structure ThreadData where
  title : String
  posts : List Post
deriving DecidableEq, Repr

/-- Embeds Thread.fetch (thread.ts lines 192-223), the outermost entry
point of the pipeline: on a failed first-page fetch the failure value is
thrown (`else throw htmlResponse.value`, line 222); on success the thread
fields are scraped and fetchPosts is awaited, whose thrown error (if any)
propagates out of fetch unchanged. -/
def fetch (htmlResponse : Result FetchError ThreadPage)
    (pagination : Result FetchError String)
    (responses : List (Result FetchError (List Post))) : Except FetchError ThreadData :=
  match htmlResponse with
  | .failure e => .error e
  | .success page =>
    match fetchPosts pagination responses with
    | .error e => .error e
    | .ok posts => .ok { title := page.title, posts := posts }

end Thread

/-- The failure of the lowest-indexed failing page response, in
request-index order: the property-side characterization used to state the
first-failure claims. -/
def firstFailure {E T : Type} (responses : List (Result E T)) : Option E :=
  responses.findSome? fun r =>
    match r with
    | .failure e => some e
    | .success _ => none

/-- A thrown JavaScript error value: `error` is a thrown `new Error(msg)`,
`typeError` is the runtime TypeError raised by dereferencing null, and
`rangeError` is the RangeError V8 raises when the call stack overflows. -/
inductive JsError where
  | error (message : String)
  | typeError (message : String)
  | rangeError (message : String)
deriving DecidableEq, Repr

/-- A URL as built through the WHATWG URL / URLSearchParams interface: the
base locator plus the ordered key-value query parameters (searchParams
set/append keep insertion order, and createUrl sets each distinct key
once). -/
structure Url where
  base : String
  params : List (String × String)
deriving DecidableEq, Repr

/-- The serialized query string of a Url, key=value pairs joined by the
ampersand in insertion order. -/
def Url.queryString (u : Url) : String :=
  String.intercalate "&" (u.params.map fun p => p.1 ++ "=" ++ p.2)

/-- The latest-listing endpoint constant (constants/url.ts is not under
src; only the name F95_LATEST_PHP reaches the embedded code, and no claim
depends on its value). -/
def F95_LATEST_PHP : String := "https://f95zone.to/sam/latest_alpha/latest_data.php"

/-- Embeds the SearchQuery class of search-query.ts (the latest-listing
variant): category, included tag ids, prefix ids, sort, date bucket (null
modelled as none) and page. The field defaults are the class initializers. -/
structure SearchQuery where
  category : String := "games"
  tags : List Int := []
  prefixes : List Int := []
  sort : String := "date"
  date : Option Int := none
  page : Int := 1
deriving DecidableEq, Repr

namespace SearchQuery

/-- Embeds the private constant MAX_TAGS. -/
def MAX_TAGS : Nat := 5

/-- Embeds the private constant MIN_PAGE. -/
def MIN_PAGE : Int := 1

/-- Embeds the private constant VALID_CATEGORY. -/
def VALID_CATEGORY : List String := ["games", "comics", "animations", "assets"]

/-- Embeds the private constant VALID_SORT. -/
def VALID_SORT : List String := ["date", "likes", "views", "title", "rating"]

/-- Embeds the private constant VALID_DATE (null modelled as none). -/
def VALID_DATE : List (Option Int) :=
  [some 365, some 180, some 90, some 30, some 14, some 7, some 3, some 1, none]

/-- Embeds SearchQuery.validate: validateSync checks the class-validator
decorators, namely IsIn(VALID_CATEGORY) on category, IsArray and
ArrayMaxSize(MAX_TAGS) on tags, IsArray on prefixes, IsIn(VALID_SORT) on
sort, IsIn(VALID_DATE) on date, and IsInt plus Min(MIN_PAGE) on page (the
array and integer shape checks hold by typing). -/
def validate (q : SearchQuery) : Bool :=
  VALID_CATEGORY.contains q.category
    && decide (q.tags.length ≤ MAX_TAGS)
    && VALID_SORT.contains q.sort
    && VALID_DATE.contains q.date
    && decide (MIN_PAGE ≤ q.page)

/-- Embeds SearchQuery.createUrl (search-query.ts lines 100-128): an
invalid query throws `new Error("Invalid query")`; otherwise the
parameters are inserted in source order cmd, cat, tags[], prefixes[],
sort, date, page. Line 124 evaluates this.date.toString(): when date is
null this dereferences null and raises a TypeError before any URL is
produced; a numeric date serializes as its decimal string. -/
def createUrl (q : SearchQuery) : Except JsError Url :=
  if q.validate = false then .error (JsError.error "Invalid query")
  else
    match q.date with
    | none => .error (JsError.typeError "Cannot read properties of null (reading toString)")
    | some d =>
      .ok { base := F95_LATEST_PHP
            params :=
              [("cmd", "list"), ("cat", q.category)]
                ++ q.tags.map (fun t => ("tags[]", toString t))
                ++ q.prefixes.map (fun p => ("prefixes[]", toString p))
                ++ [("sort", q.sort), ("date", toString d), ("page", toString q.page)] }

end SearchQuery

/-- Modelled from the spec: the TLatestOrder vocabulary of
latest-search-query.ts, which is not under src. Spec section 3 gives the
latest-listing sort vocabulary as date, likes, views, title, rating, and
the VALID_SORT constant of the in-src SearchQuery class lists the same
values. -/
def latestOrders : List String := ["date", "likes", "views", "title", "rating"]

/-- Modelled from the spec: the TThreadOrder vocabulary of
thread-search-query.ts, which is not under src. Spec section 3 gives the
thread-search order vocabulary as date, relevance, replies, views, title. -/
def threadOrders : List String := ["date", "relevance", "replies", "views", "title"]

/-- Embeds the THandiworkOrder union of search-query.ts: the unified order
vocabulary date, likes, relevance, replies, title, views. -/
def handiworkOrders : List String := ["date", "likes", "relevance", "replies", "title", "views"]

/-- Modelled from the spec: the fields of latest-search-query.ts that
castToLatest assigns (the class itself is not under src). Dates are
represented by the elapsed-day count the bucket search compares against. -/
structure LatestSearchQuery where
  itype : String := "LatestSearchQuery"
  order : String := "date"
  date : Option Nat := none
  page : Int := 1
deriving DecidableEq, Repr

/-- Modelled from the spec: LatestSearchQuery.findNearestDate of
latest-search-query.ts, which is not under src. Spec section 4.2: pick the
first bucket value, scanning from most restrictive (1 day) to least
restrictive (365 days), whose day-count is at least the elapsed days since
newerThan; if none fits, use the anytime sentinel (null, modelled none). -/
def LatestSearchQuery.findNearestDate (elapsedDays : Nat) : Option Nat :=
  [1, 3, 7, 14, 30, 90, 180, 365].find? fun bucket => elapsedDays ≤ bucket

/-- Modelled from the spec: the fields of thread-search-query.ts (the
class is not under src). Spec section 3: free-text keywords,
included and excluded tag names, newer and older-than dates, title-only
flag, order. -/
structure ThreadSearchQuery where
  keywords : String := ""
  includedTags : List String := []
  excludedTags : List String := []
  newerThan : Option Nat := none
  olderThan : Option Nat := none
  onlyTitles : Bool := false
  order : String := "relevance"
deriving DecidableEq, Repr

/-- Embeds the HandiworkSearchQuery class of search-query.ts. The
includedPrefixes and category fields are declared without initializer in
the source (undefined at runtime) and are modelled as none; dates are
elapsed-day counts as in LatestSearchQuery. -/
structure HandiworkSearchQuery where
  keywords : String := ""
  newerThan : Option Nat := none
  olderThan : Option Nat := none
  includedTags : List String := []
  excludedTags : List String := []
  includedPrefixes : Option (List String) := none
  category : Option String := none
  order : String := "relevance"
  page : Int := 1
deriving DecidableEq, Repr

/-- The runtime value HandiworkSearchQuery.cast can return: a converted
latest or thread query, or the receiver itself unchanged. -/
inductive CastResult where
  | latest (q : LatestSearchQuery)
  | thread (q : ThreadSearchQuery)
  | handiwork (q : HandiworkSearchQuery)
deriving DecidableEq, Repr

namespace HandiworkSearchQuery

/-- Embeds the static field MIN_PAGE. -/
def MIN_PAGE : Int := 1

/-- Embeds HandiworkSearchQuery.validate: the only class-validator
decorators on the class are IsInt and Min(MIN_PAGE) on page. -/
def validate (q : HandiworkSearchQuery) : Bool :=
  decide (MIN_PAGE ≤ q.page)

/-- Embeds HandiworkSearchQuery.selectSearchType (search-query.ts lines
207-218): a truthy keywords string (any non-empty string) or more than
MAX_TAGS_LATEST_SEARCH = 5 included tags routes to the thread search,
otherwise to the default latest search. -/
def selectSearchType (q : HandiworkSearchQuery) : String :=
  if q.keywords ≠ "" || q.includedTags.length > 5 then "thread" else "latest"

/-- Embeds HandiworkSearchQuery.castToLatest (search-query.ts lines
258-273): the receiver is reused as the latest query, itype is set, the
order filter substitutes rating for relevance and views for replies and
passes every other value through, and the date bucket is set from
newerThan only when newerThan is truthy (a null date leaves the field
undefined). -/
def castToLatest (q : HandiworkSearchQuery) : LatestSearchQuery :=
  let orderFilter :=
    if q.order = "relevance" then "rating"
    else if q.order = "replies" then "views"
    else q.order
  { itype := "LatestSearchQuery"
    order := orderFilter
    date :=
      match q.newerThan with
      | some days => LatestSearchQuery.findNearestDate days
      | none => none
    page := q.page }

/-- Embeds HandiworkSearchQuery.castToThread (search-query.ts lines
275-292): excluded tags, both date bounds and keywords are copied, the
title-only flag is set to true, and the order filter substitutes relevance
for likes and for title, passing every other value through. The included
tags stay those of the receiver, since the source mutates the receiver
object itself. -/
def castToThread (q : HandiworkSearchQuery) : ThreadSearchQuery :=
  let orderFilter :=
    if q.order = "likes" || q.order = "title" then "relevance"
    else q.order
  { keywords := q.keywords
    includedTags := q.includedTags
    excludedTags := q.excludedTags
    newerThan := q.newerThan
    olderThan := q.olderThan
    onlyTitles := true
    order := orderFilter }

/-- The itype property of the fresh object `const query: T = {} as IQuery as T`
built by HandiworkSearchQuery.cast: TypeScript type parameters are erased
at runtime, so the object literal is empty whatever T is and its itype
property is undefined. -/
def freshObjectItype : Option String := none

/-- Embeds HandiworkSearchQuery.cast (search-query.ts lines 240-254): the
dispatch compares the itype of the freshly created empty object (undefined)
against the two variant names with strict equality; both tests fail, so the
method always falls through to `returnValue = this` and returns the
receiver unchanged, never invoking castToLatest or castToThread. -/
def cast (q : HandiworkSearchQuery) : CastResult :=
  if freshObjectItype = some "LatestSearchQuery" then CastResult.latest q.castToLatest
  else if freshObjectItype = some "ThreadSearchQuery" then CastResult.thread q.castToThread
  else CastResult.handiwork q

/-- The message of the Error thrown by HandiworkSearchQuery.createURL on a
failed validation: "Invalid query: " followed by the joined validator
messages (the only decorated field is page, with the Min message
template). -/
def invalidQueryMessage (q : HandiworkSearchQuery) : String :=
  "Invalid query: The minimum page value must be 1, received " ++ toString q.page

/-- Embeds HandiworkSearchQuery.createURL (search-query.ts lines 224-238):
an invalid query throws; otherwise the query is cast and createURL is
invoked on the cast result. Because cast always returns the receiver
unchanged (cast_eq_handiwork below), the dynamic call query.createURL()
re-enters this very method with the same receiver; the fuel argument
models the JavaScript call stack, and exhausting it is the stack-overflow
RangeError V8 raises for this unbounded recursion. -/
def createURL (q : HandiworkSearchQuery) : Nat → Except JsError Url
  | 0 => .error (JsError.rangeError "Maximum call stack size exceeded")
  | fuel + 1 =>
    if q.validate = false then .error (JsError.error (invalidQueryMessage q))
    else q.createURL fuel

end HandiworkSearchQuery

/-- A candidate element of the search result list: the trimmed href of its
thread-title anchor is what extractLinkFromResult reads (the cheerio
selector lookup is external scraping, so the element carries the href). -/
structure ResultElement where
  href : String
deriving DecidableEq, Repr

/-- The platform base URL constant F95_BASE_URL of constants/url.ts (not
under src; the claims only need that it is an absolute https locator). -/
def F95_BASE_URL : String := "https://f95zone.to"

/-- An absolute URL: one carrying an explicit http or https scheme. -/
def isAbsoluteUrl (s : String) : Bool :=
  "https://".data.isPrefixOf s.data || "http://".data.isPrefixOf s.data

/-- Interface model of WHATWG `new URL(partialLink, base)`: an input that
already carries a scheme is kept, and a relative link is resolved against
the base locator. -/
def resolveUrl (partialLink base : String) : String :=
  if isAbsoluteUrl partialLink then partialLink else base ++ partialLink

/-- Embeds extractLinkFromResult (fetch-platform-data.ts lines 239-249):
the href of the thread-title anchor inside the result element is trimmed
and resolved against F95_BASE_URL. -/
def extractLinkFromResult (el : ResultElement) : String :=
  resolveUrl el.href.trim F95_BASE_URL

/-- Embeds fetchResultURLs (fetch-platform-data.ts lines 212-232): the
rendered result page is fetched (the response is passed in as its Result,
carrying the candidate elements the GS_RESULT_BODY selector yields); on
success the results are sliced to the first `limit` entries and mapped
through extractLinkFromResult, and on failure the failure value is thrown.
The limit parameter defaults to 30. -/
def fetchResultURLs (htmlResponse : Result FetchError (List ResultElement))
    (limit : Nat) : Except FetchError (List String) :=
  match htmlResponse with
  | .failure e => .error e
  | .success results => .ok ((results.take limit).map extractLinkFromResult)

/-- The default value of the limit parameter of fetchResultURLs. -/
def DEFAULT_LIMIT : Nat := 30

/-- fetchResultURLs as invoked without an explicit limit: the limit
parameter defaults to 30. -/
def fetchResultURLsDefault (htmlResponse : Result FetchError (List ResultElement)) :
    Except FetchError (List String) :=
  fetchResultURLs htmlResponse DEFAULT_LIMIT

/-- A concrete transport failure used by the concrete instances below. -/
def pageErrorA : FetchError :=
  FetchError.genericAxios 1 "Error ECONNRESET occurred while trying to fetch page-2"

/-- A second concrete failure, of the content-type kind. -/
def pageErrorB : FetchError :=
  FetchError.unexpectedContentType 2 "Expected HTML but received application/json"

/-- A third concrete failure, for the pagination-size request. -/
def paginationError : FetchError :=
  FetchError.genericAxios 1 "Error 403 occurred while trying to fetch the dpp update"

theorem cast_eq_handiwork (q : HandiworkSearchQuery) :
    q.cast = CastResult.handiwork q := rfl

theorem postComparator_nonpos_iff (a b : Post) :
    Thread.postComparator a b ≤ 0 ↔ a.id ≤ b.id := by
  simp only [Thread.postComparator]
  split_ifs <;> omega

theorem sortPosts_perm (posts : List Post) : (Thread.sortPosts posts).Perm posts :=
  List.mergeSort_perm posts _

theorem sortPosts_sorted (posts : List Post) :
    (Thread.sortPosts posts).Pairwise (fun a b => a.id ≤ b.id) := by
  have h := @List.sorted_mergeSort Post
    (fun a b : Post => decide (Thread.postComparator a b ≤ 0))
    (fun a b c hab hbc => by
      simp only [decide_eq_true_eq, postComparator_nonpos_iff] at *
      omega)
    (fun a b => by
      simp only [Bool.or_eq_true, decide_eq_true_eq, postComparator_nonpos_iff]
      omega)
    posts
  have h2 := h.imp fun hab => (postComparator_nonpos_iff _ _).mp (by simpa using hab)
  simpa [Thread.sortPosts] using h2

theorem scrapePages_of_firstFailure {responses : List (Result FetchError (List Post))}
    {e : FetchError} (h : firstFailure responses = some e) :
    Thread.scrapePages responses = Except.error e := by
  induction responses with
  | nil => simp [firstFailure] at h
  | cons r rest ih =>
    cases r with
    | failure e2 =>
      simp only [firstFailure, List.findSome?_cons] at h
      cases h
      rfl
    | success posts =>
      simp only [firstFailure, List.findSome?_cons] at h
      have := ih h
      simp [Thread.scrapePages, this]

theorem scrapePages_map_success (pages : List (List Post)) :
    Thread.scrapePages (pages.map Result.success) = Except.ok pages.flatten := by
  induction pages with
  | nil => rfl
  | cons p rest ih => simp [Thread.scrapePages, ih]

/-- C1: if at least one of the fanned-out page fetches fails (the
pagination-size request itself having succeeded), the pipeline result is
the thrown failure of the lowest-indexed failing page in request-index
order, and no post list is materialized: both fetchPosts and the outer
Thread.fetch produce that error, never a thread carrying a partial post
sequence. -/
theorem fetchPosts_surfaces_first_page_failure
    (pagination : Result FetchError String) (page : Thread.ThreadPage)
    (responses : List (Result FetchError (List Post))) (e : FetchError)
    (hpag : pagination.isSuccess = true)
    (hfail : firstFailure responses = some e) :
    Thread.fetchPosts pagination responses = Except.error e
      ∧ Thread.fetch (Result.success page) pagination responses = Except.error e := by
  cases pagination with
  | failure e2 => simp [Result.isSuccess] at hpag
  | success payload =>
    have hscrape := scrapePages_of_firstFailure hfail
    constructor
    · simp [Thread.fetchPosts, Thread.setMaximumPostsForPage, hscrape]
    · simp [Thread.fetch, Thread.fetchPosts, Thread.setMaximumPostsForPage, hscrape]

/-- Witness for C1 at a concrete fan-out of three pages whose second and
third fetches fail: the surfaced error is that of page two. -/
theorem fetchPosts_surfaces_first_page_failure_witness :
    Thread.fetchPosts (Result.success "payload")
        [Result.success [], Result.failure pageErrorA, Result.failure pageErrorB]
      = Except.error pageErrorA
      ∧ Thread.fetch (Result.success { title := "thread title" }) (Result.success "payload")
          [Result.success [], Result.failure pageErrorA, Result.failure pageErrorB]
        = Except.error pageErrorA :=
  fetchPosts_surfaces_first_page_failure _ _ _ pageErrorA rfl rfl

/-- C10: when every page fetch succeeds, the assembled post sequence is the
sort of the concatenation of the per-page post sequences, hence a
permutation of that concatenation: every parsed post appears exactly once
in the final thread, and none is dropped or duplicated. -/
theorem fetchPosts_permutation_of_pages (payload : String) (pages : List (List Post)) :
    Thread.fetchPosts (Result.success payload) (pages.map Result.success)
        = Except.ok (Thread.sortPosts pages.flatten)
      ∧ (Thread.sortPosts pages.flatten).Perm pages.flatten := by
  refine ⟨?_, sortPosts_perm _⟩
  simp [Thread.fetchPosts, Thread.setMaximumPostsForPage, scrapePages_map_success]

unseal List.merge List.mergeSort in
/-- Counterexample for C2: two pages each carrying a post with the same id
1 assemble successfully into a sequence that is NOT strictly sorted by
ascending post id (the two equal ids sit side by side, in the stable order
of their pages), so the claim as stated fails on inputs with duplicated
post ids. -/
theorem fetchPosts_duplicate_ids_not_strict :
    Thread.fetchPosts (Result.success "payload")
        [Result.success [{ id := 1, message := "first copy" }],
         Result.success [{ id := 1, message := "second copy" }]]
      = Except.ok [{ id := 1, message := "first copy" }, { id := 1, message := "second copy" }]
      ∧ ¬ List.Pairwise (fun a b : Post => a.id < b.id)
          [{ id := 1, message := "first copy" }, { id := 1, message := "second copy" }] := by
  constructor
  · rfl
  · decide

/-- C2 (amended): for every list of per-page post sequences, in whatever
order the page responses are fed to the merge, the assembled post sequence
is sorted by nondecreasing post id; the order is strict exactly on the
segments where post ids are pairwise distinct. -/
theorem fetchPosts_sorted_by_ascending_id
    (pagination : Result FetchError String)
    (responses : List (Result FetchError (List Post)))
    (l : List Post) (h : Thread.fetchPosts pagination responses = Except.ok l) :
    l.Pairwise (fun a b => a.id ≤ b.id) := by
  unfold Thread.fetchPosts at h
  cases hp : Thread.setMaximumPostsForPage pagination with
  | error e => rw [hp] at h; exact absurd h (by simp)
  | ok u =>
    rw [hp] at h
    cases hs : Thread.scrapePages responses with
    | error e => rw [hs] at h; exact absurd h (by simp)
    | ok fetchedPosts =>
      rw [hs] at h
      simp only [Except.ok.injEq] at h
      exact h ▸ sortPosts_sorted fetchedPosts

unseal List.merge List.mergeSort in
/-- Witness for C2 at a concrete out-of-order pair of pages: page two
holds the later posts yet is listed first, and the assembled sequence
comes out ordered by id. -/
theorem fetchPosts_sorted_by_ascending_id_witness :
    List.Pairwise (fun a b : Post => a.id ≤ b.id)
      [{ id := 3, message := "p1" }, { id := 7, message := "p2" }] :=
  fetchPosts_sorted_by_ascending_id (Result.success "payload")
    [Result.success [{ id := 7, message := "p2" }],
     Result.success [{ id := 3, message := "p1" }]]
    [{ id := 3, message := "p1" }, { id := 7, message := "p2" }] rfl

/-- Counterexample for C5: the intermediate pipeline steps do not forward
a failure by returning a Result value. setMaximumPostsForPage returns
Promise of void and fetchPosts returns Promise of a post array, so each
inspects the Result of its network call and converts the failure into a
thrown exception (the Except error channel) inside the pipeline, before
the outermost caller boundary Thread.fetch is reached. -/
theorem pipeline_throws_before_outermost_boundary :
    Thread.setMaximumPostsForPage (Result.failure paginationError)
        = Except.error paginationError
      ∧ Thread.fetchPosts (Result.failure paginationError) []
        = Except.error paginationError := ⟨rfl, rfl⟩

/-- C5 (amended): the leaf fetch helpers return Result values that every
pipeline step inspects, but the intermediate steps (the pagination-size
request and the page-fetch scan) convert an inspected failure into a
thrown error immediately rather than returning it; the error value that
reaches - and leaves - the outermost entry point Thread.fetch is identical
to the failure originally produced by the failing step, never wrapped or
re-tagged. -/
theorem failure_value_reaches_fetch_unchanged
    (page : Thread.ThreadPage) (pagination : Result FetchError String)
    (responses : List (Result FetchError (List Post))) (e : FetchError) :
    (Thread.fetch (Result.failure e) pagination responses = Except.error e)
      ∧ (Thread.fetch (Result.success page) (Result.failure e) responses = Except.error e)
      ∧ (pagination.isSuccess = true → firstFailure responses = some e →
          Thread.fetch (Result.success page) pagination responses = Except.error e) := by
  refine ⟨rfl, rfl, fun hpag hfail => ?_⟩
  cases pagination with
  | failure e2 => simp [Result.isSuccess] at hpag
  | success payload =>
    have hscrape := scrapePages_of_firstFailure hfail
    simp [Thread.fetch, Thread.fetchPosts, Thread.setMaximumPostsForPage, hscrape]

/-- Witness for C5 at a concrete run whose third page fetch fails: the
error object leaving Thread.fetch is the very failure of that page. -/
theorem failure_value_reaches_fetch_unchanged_witness :
    Thread.fetch (Result.failure pageErrorB) (Result.success "payload") [] = Except.error pageErrorB
      ∧ Thread.fetch (Result.success { title := "t" }) (Result.failure pageErrorB) []
          = Except.error pageErrorB
      ∧ Thread.fetch (Result.success { title := "t" }) (Result.success "payload")
          [Result.success [], Result.success [], Result.failure pageErrorA]
          = Except.error pageErrorA :=
  ⟨(failure_value_reaches_fetch_unchanged { title := "t" } (Result.success "payload") [] pageErrorB).1,
   (failure_value_reaches_fetch_unchanged { title := "t" } (Result.failure pageErrorB) [] pageErrorB).2.1,
   (failure_value_reaches_fetch_unchanged { title := "t" } (Result.success "payload")
      [Result.success [], Result.success [], Result.failure pageErrorA] pageErrorA).2.2 rfl rfl⟩

/-- C3: the intended order remap of castToLatest and castToThread is total
(every unified order value lands in the target backend vocabulary), but
the public cast entry point the claim describes never performs it: its
dispatch reads the itype of a freshly created empty object, which is
undefined, so cast returns the receiver unchanged and the unified value
relevance - absent from the latest vocabulary - passes through unchanged
when casting to the latest backend. -/
theorem cast_skips_order_remap :
    (handiworkOrders.all fun o =>
        latestOrders.contains (HandiworkSearchQuery.castToLatest { order := o }).order
          && threadOrders.contains (HandiworkSearchQuery.castToThread { order := o }).order)
      = true
      ∧ HandiworkSearchQuery.cast { order := "relevance" }
        = CastResult.handiwork { order := "relevance" }
      ∧ "relevance" ∉ latestOrders
      ∧ (HandiworkSearchQuery.castToLatest { order := "relevance" }).order = "rating" := by
  refine ⟨by decide, rfl, by decide, rfl⟩

/-- C4: routing of a unified query. Non-empty keywords select the thread
search; empty keywords with at most five included tags select the latest
search; empty keywords with more than five included tags select the thread
search. -/
theorem selectSearchType_routing (q : HandiworkSearchQuery) :
    (q.keywords ≠ "" → q.selectSearchType = "thread")
      ∧ (q.keywords = "" → q.includedTags.length ≤ 5 → q.selectSearchType = "latest")
      ∧ (q.keywords = "" → q.includedTags.length > 5 → q.selectSearchType = "thread") := by
  refine ⟨fun hk => ?_, fun hk htags => ?_, fun hk htags => ?_⟩ <;>
    simp [HandiworkSearchQuery.selectSearchType, hk] <;> omega

/-- Witness for C4 at three concrete queries: keywords set, no keywords
with five tags, and no keywords with six tags. -/
theorem selectSearchType_routing_witness :
    HandiworkSearchQuery.selectSearchType { keywords := "adventure" } = "thread"
      ∧ HandiworkSearchQuery.selectSearchType
          { includedTags := ["t1", "t2", "t3", "t4", "t5"] } = "latest"
      ∧ HandiworkSearchQuery.selectSearchType
          { includedTags := ["t1", "t2", "t3", "t4", "t5", "t6"] } = "thread" :=
  ⟨(selectSearchType_routing { keywords := "adventure" }).1 (by decide),
   (selectSearchType_routing { includedTags := ["t1", "t2", "t3", "t4", "t5"] }).2.1
     rfl (by decide),
   (selectSearchType_routing { includedTags := ["t1", "t2", "t3", "t4", "t5", "t6"] }).2.2
     rfl (by decide)⟩

/-- The latest-listing query of the C6 example: category games, no tags,
no prefixes, sort date, date null, page 1. -/
def exampleLatestQuery : SearchQuery :=
  { category := "games", tags := [], prefixes := [], sort := "date", date := none, page := 1 }

/-- C6: the example query is valid (null is an allowed date value), yet
createUrl does not return a URL whose query string carries date=null: line
124 calls toString on the null date and the run dies with a TypeError
before any URL exists. -/
theorem createUrl_null_date_raises_type_error :
    SearchQuery.validate exampleLatestQuery = true
      ∧ SearchQuery.createUrl exampleLatestQuery
        = Except.error (JsError.typeError "Cannot read properties of null (reading toString)") := by
  refine ⟨by decide, rfl⟩

/-- C7: URL generation fails closed on both in-src variants. A query whose
validate is false makes createUrl (and createURL, at any positive call
depth) signal the invalid-query failure and produce no URL; a query whose
validate is true never makes URL generation signal a thrown
invalid-query Error - for the handiwork variant the run instead exhausts
the call stack, which is not a validation failure. -/
theorem url_generation_fails_closed
    (q : SearchQuery) (h : HandiworkSearchQuery) (fuel : Nat) :
    (q.validate = false → q.createUrl = Except.error (JsError.error "Invalid query"))
      ∧ (q.validate = true → ∀ msg, q.createUrl ≠ Except.error (JsError.error msg))
      ∧ (h.validate = false →
          h.createURL (fuel + 1) = Except.error (JsError.error (h.invalidQueryMessage)))
      ∧ (h.validate = true → ∀ msg, h.createURL fuel ≠ Except.error (JsError.error msg)) := by
  refine ⟨fun hv => ?_, fun hv msg => ?_, fun hv => ?_, fun hv => ?_⟩
  · simp [SearchQuery.createUrl, hv]
  · cases hd : q.date <;> simp [SearchQuery.createUrl, hv, hd]
  · simp [HandiworkSearchQuery.createURL, hv]
  · induction fuel with
    | zero => intro msg; simp [HandiworkSearchQuery.createURL]
    | succ n ih => intro msg; simpa [HandiworkSearchQuery.createURL, hv] using ih msg

/-- Witness for C7 at a concrete invalid query (page 0) and the concrete
valid default queries of both variants, with call depth 4. -/
theorem url_generation_fails_closed_witness :
    SearchQuery.createUrl { page := 0 } = Except.error (JsError.error "Invalid query")
      ∧ SearchQuery.createUrl { category := "games" }
        ≠ Except.error (JsError.error "Invalid query")
      ∧ HandiworkSearchQuery.createURL { page := 0 } 4
        = Except.error (JsError.error (HandiworkSearchQuery.invalidQueryMessage { page := 0 }))
      ∧ HandiworkSearchQuery.createURL { keywords := "kw" } 4
        ≠ Except.error (JsError.error "Invalid query") :=
  ⟨(url_generation_fails_closed { page := 0 } { page := 0 } 3).1 (by decide),
   (url_generation_fails_closed { category := "games" } { page := 0 } 3).2.1 (by decide)
     "Invalid query",
   (url_generation_fails_closed { page := 0 } { page := 0 } 3).2.2.1 (by decide),
   (url_generation_fails_closed { page := 0 } { keywords := "kw" } 4).2.2.2 (by decide)
     "Invalid query"⟩

/-- The concrete handiwork query used for C8, with every field the claim
mentions populated. -/
def exampleHandiworkQuery : HandiworkSearchQuery :=
  { keywords := "space station", newerThan := some 10, olderThan := some 100,
    includedTags := ["3d game"], excludedTags := ["vn", "abandoned"],
    order := "likes", page := 2 }

/-- C8: castToThread does copy the excluded tags, both date bounds and the
keywords verbatim and forces the title-only flag on, but the public cast
the claim describes never reaches it: cast returns the handiwork receiver
unchanged, producing no ThreadSearchQuery at all (in particular nothing
with onlyTitles forced to true). -/
theorem cast_to_thread_bypassed :
    HandiworkSearchQuery.cast exampleHandiworkQuery = CastResult.handiwork exampleHandiworkQuery
      ∧ (HandiworkSearchQuery.castToThread exampleHandiworkQuery).excludedTags
        = exampleHandiworkQuery.excludedTags
      ∧ (HandiworkSearchQuery.castToThread exampleHandiworkQuery).newerThan
        = exampleHandiworkQuery.newerThan
      ∧ (HandiworkSearchQuery.castToThread exampleHandiworkQuery).olderThan
        = exampleHandiworkQuery.olderThan
      ∧ (HandiworkSearchQuery.castToThread exampleHandiworkQuery).onlyTitles = true
      ∧ (HandiworkSearchQuery.castToThread exampleHandiworkQuery).keywords
        = exampleHandiworkQuery.keywords := by
  refine ⟨rfl, rfl, rfl, rfl, rfl, rfl⟩

theorem isAbsoluteUrl_resolveUrl (partialLink : String) :
    isAbsoluteUrl (resolveUrl partialLink F95_BASE_URL) = true := by
  unfold resolveUrl
  by_cases habs : isAbsoluteUrl partialLink = true
  · simp [habs]
  · rw [if_neg habs]
    unfold isAbsoluteUrl
    rw [Bool.or_eq_true]
    left
    rw [List.isPrefixOf_iff_prefix, String.data_append]
    exact List.IsPrefix.trans (by decide) (List.prefix_append _ _)

/-- C9: on a successfully fetched result page the search execution returns
the first limit candidate elements (at most limit URLs), each one the
trimmed href of its result element resolved against the platform base URL
and therefore absolute; a page with zero candidate links yields a
successful empty list, not a failure. -/
theorem fetchResultURLs_bounded_absolute
    (results : List ResultElement) (limit : Nat) :
    fetchResultURLs (Result.success results) limit
        = Except.ok ((results.take limit).map extractLinkFromResult)
      ∧ ((results.take limit).map extractLinkFromResult).length ≤ limit
      ∧ ((results.take limit).map extractLinkFromResult).all isAbsoluteUrl = true
      ∧ fetchResultURLs (Result.success []) limit = Except.ok []
      ∧ fetchResultURLsDefault (Result.success results)
        = fetchResultURLs (Result.success results) 30 := by
  refine ⟨rfl, ?_, ?_, by simp [fetchResultURLs], rfl⟩
  · simp [List.length_take]
  · rw [List.all_eq_true]
    intro u hu
    rw [List.mem_map] at hu
    obtain ⟨el, _, rfl⟩ := hu
    exact isAbsoluteUrl_resolveUrl el.href.trim

end F95
